import Mathlib

/-!
Shallow embedding of the live-edits operational-transform server
(`operational_transform/ot.py`): the `Operation` value, the pairwise
`transform` function, the `DocumentModel`, and the `OTServer`
reconciliation path (`handle_incoming_operation`).  Python string and
list slices are total (indices are clamped), so the embedding models
`s[:i]` / `s[i:]` with explicit clamping over `Int` indices.  Errors
(the `ValueError` raised on an unknown operation type) are modelled
with `Except`.
-/

deriving instance DecidableEq for Except

namespace LiveEdits

/-- Clamp an integer index `i` for a Python slice over a sequence of
length `n`: negative indices count from the end, and the result is
clamped into `[0, n]`. -/
def pyClampIdx (n : Nat) (i : Int) : Nat :=
  let j1 : Int := if i < 0 then (n : Int) + i else i
  let j2 : Int := if j1 < 0 then 0 else j1
  let j3 : Int := if j2 > (n : Int) then (n : Int) else j2
  j3.toNat

/-- Python string slice `s[:i]`. -/
def pyTake (s : String) (i : Int) : String :=
  ⟨s.data.take (pyClampIdx s.data.length i)⟩

/-- Python string slice `s[i:]`. -/
def pyDrop (s : String) (i : Int) : String :=
  ⟨s.data.drop (pyClampIdx s.data.length i)⟩

/-- Python list slice `l[i:]`. -/
def pySliceFrom {α : Type} (l : List α) (i : Int) : List α :=
  l.drop (pyClampIdx l.length i)

/-- The `Operation` class of `ot.py`: a single insert or delete edit.
`op_type` is the literal Python string tag; positions, lengths and
versions are Python integers; `op_id` is the optional client identifier
(`None` ↦ `none`). -/
structure Operation where
  op_type : String
  position : Int
  text : String
  length : Int
  base_version : Int
  op_id : Option String
deriving DecidableEq

/-- The copy made at the top of `transform` (lines 37-38 of `ot.py`):
`Operation(op.op_type, op.position, op.text, op.length, op.base_version)`.
The constructor call passes no `op_id`, so the copy's `op_id` is the
default `None`. -/
def copyForTransform (o : Operation) : Operation :=
  ⟨o.op_type, o.position, o.text, o.length, o.base_version, none⟩

/-- Body of `transform` from `ot.py`, with a fuel argument for the single
self-call in the delete/insert branch (`transform(B, A)`), whose callee
never recurses again because its first argument is an insert; fuel `2`
therefore never exhausts.  All four Python cases are translated
branch-for-branch; every mutation targets the copies `A`, `B`. -/
def transformAux : Nat → Operation → Operation → Operation × Operation
  | 0, opA, opB => (copyForTransform opA, copyForTransform opB)
  | Nat.succ fuel, opA, opB =>
    let A := copyForTransform opA
    let B := copyForTransform opB
    if A.op_type = "insert" ∧ B.op_type = "insert" then
      if A.position < B.position then
        (A, { B with position := B.position + (A.text.length : Int) })
      else if A.position > B.position then
        ({ A with position := A.position + (B.text.length : Int) }, B)
      else
        (A, { B with position := B.position + (A.text.length : Int) })
    else if A.op_type = "insert" ∧ B.op_type = "delete" then
      if A.position ≤ B.position then
        (A, { B with position := B.position + (A.text.length : Int) })
      else
        let shift := min (A.position - B.position) B.length
        ({ A with position := A.position - shift }, B)
    else if A.op_type = "delete" ∧ B.op_type = "insert" then
      let p := transformAux fuel B A
      (p.2, p.1)
    else if A.op_type = "delete" ∧ B.op_type = "delete" then
      if A.position < B.position then
        let overlap := A.position + A.length - B.position
        if overlap > 0 then
          (A, { B with position := A.position, length := B.length + overlap })
        else (A, B)
      else
        let overlap := B.position + B.length - A.position
        if overlap > 0 then
          ({ A with position := B.position, length := A.length + overlap }, B)
        else (A, B)
    else (A, B)

/-- `transform(opA, opB)` of `ot.py`. -/
def transform (opA opB : Operation) : Operation × Operation :=
  transformAux 2 opA opB

/-- The `DocumentModel` class: current text plus version counter. -/
structure DocumentModel where
  text : String
  version : Nat
deriving DecidableEq

/-- `DocumentModel.apply_operation`: splice for insert, remove for
delete, `ValueError` for any other kind.  In the Python the `raise`
happens before the text assignment and the version increment, so the
error path produces no new state. -/
def DocumentModel.apply_operation (d : DocumentModel) (op : Operation) :
    Except String DocumentModel :=
  if op.op_type = "insert" then
    .ok ⟨pyTake d.text op.position ++ op.text ++ pyDrop d.text op.position,
         d.version + 1⟩
  else if op.op_type = "delete" then
    .ok ⟨pyTake d.text op.position ++ pyDrop d.text (op.position + op.length),
         d.version + 1⟩
  else
    .error "Unknown operation type."

/-- The payload broadcast by `handle_incoming_operation` (`ot_update`). -/
structure UpdatePayload where
  opId : Option String
  op_type : String
  position : Int
  text : String
  length : Int
  new_version : Nat
deriving DecidableEq

/-- The `OTServer` class: canonical document plus append-only history. -/
structure OTServer where
  document : DocumentModel
  history : List Operation
deriving DecidableEq

/-- `OTServer.__init__`: document `"Hello OT!"` at version 0, empty
history. -/
def OTServer.init : OTServer :=
  ⟨⟨"Hello OT!", 0⟩, []⟩

/-- `OTServer.handle_incoming_operation`: slice the unseen history at
`op.base_version` (a Python slice, hence clamped), rebase `op` through it
by repeated `transform` (keeping the first component), apply the result,
append it to history, and build the broadcast payload.  The Python
`ValueError` from `apply_operation` propagates before the append, which
the `Except` return models. -/
def OTServer.handle_incoming_operation (s : OTServer) (op : Operation) :
    Except String (OTServer × UpdatePayload) :=
  let unseen_ops := pySliceFrom s.history op.base_version
  let op2 := unseen_ops.foldl (fun acc old => (transform acc old).1) op
  match s.document.apply_operation op2 with
  | .error e => .error e
  | .ok d2 =>
    .ok (⟨d2, s.history ++ [op2]⟩,
         ⟨op2.op_id, op2.op_type, op2.position, op2.text, op2.length, d2.version⟩)

/-- One server step: the state after one `handle_incoming_operation`
call; a raised error leaves the state as it was. -/
def OTServer.step (s : OTServer) (op : Operation) : OTServer :=
  match s.handle_incoming_operation op with
  | .ok (s2, _) => s2
  | .error _ => s

/-- Run a sequence of incoming operations from a state, returning the
final state together with the number of successfully applied
operations. -/
def OTServer.runCount (s : OTServer) (ops : List Operation) (acc : Nat) :
    OTServer × Nat :=
  match ops with
  | [] => (s, acc)
  | op :: rest =>
    match s.handle_incoming_operation op with
    | .ok (s2, _) => s2.runCount rest (acc + 1)
    | .error _ => s.runCount rest acc

/-- Clamping is the identity on an in-range index. -/
lemma pyClampIdx_of_nonneg_le {n : Nat} {i : Int} (h0 : 0 ≤ i)
    (h1 : i ≤ (n : Int)) : pyClampIdx n i = i.toNat := by
  simp only [pyClampIdx]
  split_ifs <;> omega

/-- Clamping an index at or past the end yields the length. -/
lemma pyClampIdx_of_ge {n : Nat} {i : Int} (h : (n : Int) ≤ i) :
    pyClampIdx n i = n := by
  simp only [pyClampIdx]
  split_ifs <;> omega

/-- A negative index counts from the end (clamped below at 0 by
`Int.toNat`). -/
lemma pyClampIdx_of_neg {n : Nat} {i : Int} (h : i < 0) :
    pyClampIdx n i = ((n : Int) + i).toNat := by
  simp only [pyClampIdx]
  split_ifs <;> omega

/-- Frame facts of `transformAux`: both results keep their operand's
`op_type`, `text` and `base_version`; only `position` and `length` are
ever adjusted; and both results are the fresh copies, whose `op_id` is
`none`. -/
lemma transformAux_frame (fuel : Nat) :
    ∀ (a b : Operation),
      ((transformAux fuel a b).1.op_type = a.op_type ∧
       (transformAux fuel a b).1.text = a.text ∧
       (transformAux fuel a b).1.base_version = a.base_version ∧
       (transformAux fuel a b).1.op_id = none) ∧
      ((transformAux fuel a b).2.op_type = b.op_type ∧
       (transformAux fuel a b).2.text = b.text ∧
       (transformAux fuel a b).2.base_version = b.base_version ∧
       (transformAux fuel a b).2.op_id = none) := by
  induction fuel with
  | zero =>
    intro a b
    simp [transformAux, copyForTransform]
  | succ fuel ih =>
    intro a b
    have ihba := ih (copyForTransform b) (copyForTransform a)
    simp only [transformAux]
    split_ifs <;> simp_all [copyForTransform]

/-- Rebasing an operation through a list of prior operations (the fold
in `handle_incoming_operation`) never changes its `op_type`. -/
lemma rebase_op_type (l : List Operation) :
    ∀ (o : Operation),
      (l.foldl (fun acc old => (transform acc old).1) o).op_type = o.op_type := by
  induction l with
  | nil => intro o; rfl
  | cons x xs ih =>
    intro o
    simp only [List.foldl]
    rw [ih]
    exact (transformAux_frame 2 o x).1.1

/-- On an insert or delete operation, `apply_operation` always succeeds
and increments the version, whatever the position and length are
(Python slices clamp out-of-range indices). -/
lemma apply_operation_ok (d : DocumentModel) (o : Operation)
    (h : o.op_type = "insert" ∨ o.op_type = "delete") :
    ∃ t, d.apply_operation o = .ok ⟨t, d.version + 1⟩ := by
  rcases h with h | h <;> simp [DocumentModel.apply_operation, h]

/-- On any operation of unknown kind, `apply_operation` raises. -/
lemma apply_operation_error (d : DocumentModel) (o : Operation)
    (h1 : o.op_type ≠ "insert") (h2 : o.op_type ≠ "delete") :
    d.apply_operation o = .error "Unknown operation type." := by
  simp [DocumentModel.apply_operation, h1, h2]

/-- C1: the core OT commutativity law fails on the code.  For base
document "abcdef" with A = insert "X" at 2 and B = delete 4 chars at 1
(the insert position strictly inside the deleted range),
`transform(A, B)` collapses A to position 1 and leaves B untouched;
applying A' after B yields "aXf" while applying B' after A yields "aef"
(B' deletes the inserted character), so the two orders disagree even
though `transform`'s own docstring promises they agree. -/
theorem transform_not_commutative_insert_inside_delete :
    transform ⟨"insert", 2, "X", 0, 0, none⟩ ⟨"delete", 1, "", 4, 0, none⟩ =
      (⟨"insert", 1, "X", 0, 0, none⟩, ⟨"delete", 1, "", 4, 0, none⟩) ∧
    Except.bind ((⟨"abcdef", 0⟩ : DocumentModel).apply_operation
        ⟨"delete", 1, "", 4, 0, none⟩)
      (fun d => d.apply_operation
        (transform ⟨"insert", 2, "X", 0, 0, none⟩
          ⟨"delete", 1, "", 4, 0, none⟩).1) = .ok ⟨"aXf", 2⟩ ∧
    Except.bind ((⟨"abcdef", 0⟩ : DocumentModel).apply_operation
        ⟨"insert", 2, "X", 0, 0, none⟩)
      (fun d => d.apply_operation
        (transform ⟨"insert", 2, "X", 0, 0, none⟩
          ⟨"delete", 1, "", 4, 0, none⟩).2) = .ok ⟨"aef", 2⟩ ∧
    (Except.ok (⟨"aXf", 2⟩ : DocumentModel) : Except String DocumentModel) ≠
      .ok ⟨"aef", 2⟩ := by
  decide

/-- C9: the independent-inserts scenario behaves as specified.  From the
initial state ("Hello OT!", version 0), X = insert "a" at 5 (base 0)
applies unchanged giving "Helloa OT!" at version 1; Y = insert "b" at 0
(base 0) is then rebased with no position shift and gives "bHelloa OT!"
at version 2. -/
theorem independent_inserts_scenario :
    OTServer.init.handle_incoming_operation ⟨"insert", 5, "a", 0, 0, some "x1"⟩ =
      .ok (⟨⟨"Helloa OT!", 1⟩, [⟨"insert", 5, "a", 0, 0, some "x1"⟩]⟩,
           ⟨some "x1", "insert", 5, "a", 0, 1⟩) ∧
    (⟨⟨"Helloa OT!", 1⟩,
        [⟨"insert", 5, "a", 0, 0, some "x1"⟩]⟩ : OTServer).handle_incoming_operation
        ⟨"insert", 0, "b", 0, 0, some "y1"⟩ =
      .ok (⟨⟨"bHelloa OT!", 2⟩,
            [⟨"insert", 5, "a", 0, 0, some "x1"⟩, ⟨"insert", 0, "b", 0, 0, none⟩]⟩,
           ⟨none, "insert", 0, "b", 0, 2⟩) := by
  decide

/-- C3: the overlapping-deletes scenario over-deletes.  On "abcdef"
(version 0), X = delete 3 at 1 reconciles to "aef"; Y = delete 2 at 2
(base 0) is rebased by the delete/delete overlap case to delete 4 at 1,
whose application to "aef" yields "a", not the union-of-ranges result
"aef": the rebased Y removes "e" and "f", which neither client deleted. -/
theorem overlapping_deletes_overdelete :
    (⟨⟨"abcdef", 0⟩, []⟩ : OTServer).handle_incoming_operation
        ⟨"delete", 1, "", 3, 0, some "cx"⟩ =
      .ok (⟨⟨"aef", 1⟩, [⟨"delete", 1, "", 3, 0, some "cx"⟩]⟩,
           ⟨some "cx", "delete", 1, "", 3, 1⟩) ∧
    (⟨⟨"aef", 1⟩,
        [⟨"delete", 1, "", 3, 0, some "cx"⟩]⟩ : OTServer).handle_incoming_operation
        ⟨"delete", 2, "", 2, 0, some "cy"⟩ =
      .ok (⟨⟨"a", 2⟩,
            [⟨"delete", 1, "", 3, 0, some "cx"⟩, ⟨"delete", 1, "", 4, 0, none⟩]⟩,
           ⟨none, "delete", 1, "", 4, 2⟩) ∧
    ("a" : String) ≠ "aef" := by
  decide

/-- C5: a rebased operation loses its client-assigned `op_id`.  The
copies built at the top of `transform` pass no `op_id` to the
constructor, so after a single transform step the broadcast payload
carries `opId = None` instead of the original identifier "b9"; only an
operation that needs no rebasing (like the first one here) keeps its
identifier. -/
theorem rebased_operation_drops_op_id :
    OTServer.init.handle_incoming_operation ⟨"insert", 0, "q", 0, 0, some "a7"⟩ =
      .ok (⟨⟨"qHello OT!", 1⟩, [⟨"insert", 0, "q", 0, 0, some "a7"⟩]⟩,
           ⟨some "a7", "insert", 0, "q", 0, 1⟩) ∧
    (⟨⟨"qHello OT!", 1⟩,
        [⟨"insert", 0, "q", 0, 0, some "a7"⟩]⟩ : OTServer).handle_incoming_operation
        ⟨"insert", 3, "z", 0, 0, some "b9"⟩ =
      .ok (⟨⟨"qHelzlo OT!", 2⟩,
            [⟨"insert", 0, "q", 0, 0, some "a7"⟩, ⟨"insert", 4, "z", 0, 0, none⟩]⟩,
           ⟨none, "insert", 4, "z", 0, 2⟩) ∧
    (none : Option String) ≠ some "b9" := by
  decide

/-- C2 counterexample: an operation with `base_version` 5 against the
initial server (version 0) is not rejected with any stale-version
error: the history slice `history[5:]` is empty, the operation is
applied untransformed, and text, version and history all change. -/
theorem stale_base_version_applied_counterexample :
    (OTServer.init.document.version : Int) < 5 ∧
    OTServer.init.handle_incoming_operation ⟨"insert", 0, "x", 0, 5, none⟩ =
      .ok (⟨⟨"xHello OT!", 1⟩, [⟨"insert", 0, "x", 0, 5, none⟩]⟩,
           ⟨none, "insert", 0, "x", 0, 1⟩) ∧
    (⟨⟨"xHello OT!", 1⟩,
        [⟨"insert", 0, "x", 0, 5, none⟩]⟩ : OTServer) ≠ OTServer.init := by
  decide

/-- C6 counterexample: an operation with negative `base_version` is not
rejected with any malformed-operation error: `history[-3:]` is a Python
negative slice (here empty), the operation is applied, and text,
version and history all change. -/
theorem negative_base_version_applied_counterexample :
    ((-3 : Int) < 0) ∧
    OTServer.init.handle_incoming_operation ⟨"insert", 0, "x", 0, -3, none⟩ =
      .ok (⟨⟨"xHello OT!", 1⟩, [⟨"insert", 0, "x", 0, -3, none⟩]⟩,
           ⟨none, "insert", 0, "x", 0, 1⟩) ∧
    (⟨⟨"xHello OT!", 1⟩,
        [⟨"insert", 0, "x", 0, -3, none⟩]⟩ : OTServer) ≠ OTServer.init := by
  decide

/-- C4 counterexample: an insert at position 10 into the 3-character
document "abc" is out of bounds, yet `apply_operation` does not fail:
Python slices clamp the index and the text becomes "abcX" at version 1. -/
theorem apply_out_of_bounds_ok_counterexample :
    ((("abc" : String).data.length : Int) < 10) ∧
    (⟨"abc", 0⟩ : DocumentModel).apply_operation ⟨"insert", 10, "X", 0, 0, none⟩ =
      .ok ⟨"abcX", 1⟩ := by
  decide

/-- Version increment fact of a successful `apply_operation`. -/
lemma apply_operation_version (d : DocumentModel) (o : Operation)
    (d2 : DocumentModel) (h : d.apply_operation o = .ok d2) :
    d2.version = d.version + 1 := by
  unfold DocumentModel.apply_operation at h
  split_ifs at h
  · injection h with h2
    subst h2
    rfl
  · injection h with h2
    subst h2
    rfl

/-- Shape of a successful `handle_incoming_operation`: the version rises
by exactly one and the history grows by exactly one entry. -/
lemma handle_ok_facts (s : OTServer) (op : Operation) (s2 : OTServer)
    (p : UpdatePayload) (h : s.handle_incoming_operation op = .ok (s2, p)) :
    s2.document.version = s.document.version + 1 ∧
    s2.history.length = s.history.length + 1 := by
  simp only [OTServer.handle_incoming_operation] at h
  cases ha : s.document.apply_operation
      ((pySliceFrom s.history op.base_version).foldl
        (fun acc old => (transform acc old).1) op) with
  | error e => rw [ha] at h; cases h
  | ok d2 =>
    rw [ha] at h
    simp only [Except.ok.injEq, Prod.mk.injEq] at h
    obtain ⟨h1, _⟩ := h
    have hv := apply_operation_version _ _ _ ha
    constructor
    · rw [← h1]; exact hv
    · rw [← h1]; simp

/-- On an insert or delete operation, `handle_incoming_operation` always
succeeds, increments the version, and appends one history entry. -/
lemma handle_ok_of_kind (s : OTServer) (op : Operation)
    (hkind : op.op_type = "insert" ∨ op.op_type = "delete") :
    ∃ s2 p, s.handle_incoming_operation op = .ok (s2, p) ∧
      s2.document.version = s.document.version + 1 ∧
      s2.history.length = s.history.length + 1 := by
  have hk2 : ((pySliceFrom s.history op.base_version).foldl
      (fun acc old => (transform acc old).1) op).op_type = op.op_type :=
    rebase_op_type _ op
  obtain ⟨t, ht⟩ := apply_operation_ok s.document
    ((pySliceFrom s.history op.base_version).foldl
      (fun acc old => (transform acc old).1) op) (by rw [hk2]; exact hkind)
  cases hh : s.handle_incoming_operation op with
  | error e =>
    exfalso
    simp only [OTServer.handle_incoming_operation] at hh
    rw [ht] at hh
    simp at hh
  | ok pr =>
    obtain ⟨s2, p⟩ := pr
    exact ⟨s2, p, rfl, (handle_ok_facts s op s2 p hh).1,
           (handle_ok_facts s op s2 p hh).2⟩

/-- Invariant of `runCount`: from any state satisfying
`version = history.length`, the final state satisfies it too, and the
final version exceeds the initial one by exactly the number of
successfully applied operations. -/
lemma runCount_invariant (ops : List Operation) :
    ∀ (s : OTServer) (acc : Nat), s.document.version = s.history.length →
      (s.runCount ops acc).1.document.version =
        (s.runCount ops acc).1.history.length ∧
      (s.runCount ops acc).1.document.version + acc =
        s.document.version + (s.runCount ops acc).2 := by
  induction ops with
  | nil =>
    intro s acc h
    exact ⟨h, by simp [OTServer.runCount]⟩
  | cons op rest ih =>
    intro s acc h
    cases hh : s.handle_incoming_operation op with
    | error e =>
      simp only [OTServer.runCount, hh]
      exact ih s acc h
    | ok pr =>
      obtain ⟨s2, p⟩ := pr
      simp only [OTServer.runCount, hh]
      have hfacts := handle_ok_facts s op s2 p hh
      have h2 : s2.document.version = s2.history.length := by omega
      have h3 := ih s2 (acc + 1) h2
      exact ⟨h3.1, by omega⟩

/-- C2 (amended): a `base_version` at or past the history length — in
particular any `base_version` strictly greater than the current version
in a state satisfying the version/history invariant — is not rejected:
the unseen slice `history[base_version:]` is empty, so the operation is
applied to the document untransformed and appended to the history
(there is no stale-version check anywhere on the path). -/
theorem stale_base_version_passthrough (s : OTServer) (op : Operation)
    (h : (s.history.length : Int) ≤ op.base_version) :
    s.handle_incoming_operation op =
      match s.document.apply_operation op with
      | .ok d2 => .ok (⟨d2, s.history ++ [op]⟩,
          ⟨op.op_id, op.op_type, op.position, op.text, op.length, d2.version⟩)
      | .error e => .error e := by
  have hslice : pySliceFrom s.history op.base_version = [] := by
    unfold pySliceFrom
    rw [pyClampIdx_of_ge h]
    exact List.drop_length _
  cases h2 : s.document.apply_operation op with
  | ok d2 => simp [OTServer.handle_incoming_operation, hslice, h2]
  | error e => simp [OTServer.handle_incoming_operation, hslice, h2]

/-- Witness for `stale_base_version_passthrough` at the initial server
and `base_version` 7 (current version 0). -/
theorem stale_base_version_passthrough_witness :
    OTServer.init.handle_incoming_operation ⟨"insert", 1, "y", 0, 7, none⟩ =
      match OTServer.init.document.apply_operation ⟨"insert", 1, "y", 0, 7, none⟩ with
      | .ok d2 => .ok (⟨d2, OTServer.init.history ++ [⟨"insert", 1, "y", 0, 7, none⟩]⟩,
          ⟨none, "insert", 1, "y", 0, d2.version⟩)
      | .error e => .error e :=
  stale_base_version_passthrough OTServer.init ⟨"insert", 1, "y", 0, 7, none⟩
    (by decide)

/-- C6 (amended): a negative `base_version` is not rejected either: it
acts as a Python negative slice index, so the operation is rebased
against the last `|base_version|` history entries (clamped) and then, for
any insert or delete kind, applied and appended — mutating text, version
and history. -/
theorem negative_base_version_behaviour (s : OTServer) (op : Operation)
    (hneg : op.base_version < 0)
    (hkind : op.op_type = "insert" ∨ op.op_type = "delete") :
    pySliceFrom s.history op.base_version =
      s.history.drop ((s.history.length : Int) + op.base_version).toNat ∧
    ∃ s2 p, s.handle_incoming_operation op = .ok (s2, p) ∧
      s2.document.version = s.document.version + 1 ∧
      s2.history.length = s.history.length + 1 := by
  constructor
  · unfold pySliceFrom
    rw [pyClampIdx_of_neg hneg]
  · exact handle_ok_of_kind s op hkind

/-- Witness for `negative_base_version_behaviour` at the initial server
and `base_version` `-3`. -/
theorem negative_base_version_behaviour_witness :
    pySliceFrom OTServer.init.history (-3 : Int) =
      OTServer.init.history.drop
        ((OTServer.init.history.length : Int) + (-3 : Int)).toNat ∧
    ∃ s2 p, OTServer.init.handle_incoming_operation
        ⟨"insert", 0, "x", 0, -3, none⟩ = .ok (s2, p) ∧
      s2.document.version = OTServer.init.document.version + 1 ∧
      s2.history.length = OTServer.init.history.length + 1 :=
  negative_base_version_behaviour OTServer.init ⟨"insert", 0, "x", 0, -3, none⟩
    (by decide) (Or.inl rfl)

/-- String append acts as list append on the underlying data. -/
lemma string_data_append (x y : String) : x ++ y = ⟨x.data ++ y.data⟩ := rfl

/-- Data of a literal `String.mk`. -/
lemma string_mk_data (l : List Char) : (⟨l⟩ : String).data = l := rfl

/-- C4 (amended): `apply_operation` never fails for insert or delete
operations, whatever the bounds — Python slices clamp out-of-range
indices — and for every in-bounds operation it performs exactly the
specified splice (inserting the text at the position, or removing the
`length` characters starting at the position). -/
theorem apply_operation_bounds_behaviour (d : DocumentModel) (op : Operation) :
    ((op.op_type = "insert" ∨ op.op_type = "delete") →
      ∃ t, d.apply_operation op = .ok ⟨t, d.version + 1⟩) ∧
    (op.op_type = "insert" → 0 ≤ op.position →
      op.position ≤ (d.text.data.length : Int) →
      d.apply_operation op =
        .ok ⟨⟨d.text.data.take op.position.toNat ++ op.text.data ++
              d.text.data.drop op.position.toNat⟩, d.version + 1⟩) ∧
    (op.op_type = "delete" → 0 ≤ op.position → 0 ≤ op.length →
      op.position + op.length ≤ (d.text.data.length : Int) →
      d.apply_operation op =
        .ok ⟨⟨d.text.data.take op.position.toNat ++
              d.text.data.drop (op.position + op.length).toNat⟩,
             d.version + 1⟩) := by
  refine ⟨apply_operation_ok d op, ?_, ?_⟩
  · intro h h0 h1
    have e1 : pyTake d.text op.position = ⟨d.text.data.take op.position.toNat⟩ := by
      unfold pyTake
      rw [pyClampIdx_of_nonneg_le h0 h1]
    have e2 : pyDrop d.text op.position = ⟨d.text.data.drop op.position.toNat⟩ := by
      unfold pyDrop
      rw [pyClampIdx_of_nonneg_le h0 h1]
    simp only [DocumentModel.apply_operation, h, if_pos, e1, e2]
    simp [string_data_append, string_mk_data, List.append_assoc]
  · intro h h0 h1 h2
    have e1 : pyTake d.text op.position = ⟨d.text.data.take op.position.toNat⟩ := by
      unfold pyTake
      rw [pyClampIdx_of_nonneg_le h0 (by omega)]
    have e2 : pyDrop d.text (op.position + op.length) =
        ⟨d.text.data.drop (op.position + op.length).toNat⟩ := by
      unfold pyDrop
      rw [pyClampIdx_of_nonneg_le (by omega) h2]
    have hne : op.op_type ≠ "insert" := by
      rw [h]
      decide
    simp only [DocumentModel.apply_operation, e1, e2]
    rw [if_neg hne, if_pos h]
    simp [string_data_append, string_mk_data]

/-- Witness for `apply_operation_bounds_behaviour`: the in-bounds insert
of "Z" at position 1 into "abc" succeeds and yields "aZbc" at version 1. -/
theorem apply_operation_bounds_behaviour_witness :
    (⟨"abc", 0⟩ : DocumentModel).apply_operation ⟨"insert", 1, "Z", 0, 0, none⟩ =
      .ok ⟨"aZbc", 1⟩ := by
  have h := (apply_operation_bounds_behaviour ⟨"abc", 0⟩
    ⟨"insert", 1, "Z", 0, 0, none⟩).2.1 rfl (by decide) (by decide)
  exact h.trans (by decide)

/-- C7: from the initial state, after any sequence of incoming
operations the document's version equals the history length and equals
the number of successfully applied operations; moreover every successful
reconciliation increases the version by exactly 1, and a server step
never decreases it. -/
theorem version_equals_history_length_invariant (ops : List Operation) :
    (OTServer.init.runCount ops 0).1.document.version =
      (OTServer.init.runCount ops 0).1.history.length ∧
    (OTServer.init.runCount ops 0).1.document.version =
      (OTServer.init.runCount ops 0).2 ∧
    (∀ (s : OTServer) (op : Operation) (s2 : OTServer) (p : UpdatePayload),
      s.handle_incoming_operation op = .ok (s2, p) →
      s2.document.version = s.document.version + 1) ∧
    (∀ (s : OTServer) (op : Operation),
      s.document.version ≤ (s.step op).document.version) := by
  obtain ⟨ha, hb⟩ := runCount_invariant ops OTServer.init 0 rfl
  have hz : OTServer.init.document.version = 0 := rfl
  refine ⟨ha, by omega, ?_, ?_⟩
  · intro s op s2 p hok
    exact (handle_ok_facts s op s2 p hok).1
  · intro s op
    cases hh : s.handle_incoming_operation op with
    | error e => simp [OTServer.step, hh]
    | ok pr =>
      obtain ⟨s2, p⟩ := pr
      have h2 := (handle_ok_facts s op s2 p hh).1
      simp [OTServer.step, hh]
      omega

/-- Witness for `version_equals_history_length_invariant` on the empty
sequence, applying the successful-increment clause to a concrete
reconciliation from the initial server. -/
theorem version_invariant_witness :
    (⟨⟨"wHello OT!", 1⟩,
        [⟨"insert", 0, "w", 0, 0, some "w1"⟩]⟩ : OTServer).document.version =
      OTServer.init.document.version + 1 :=
  (version_equals_history_length_invariant []).2.2.1 OTServer.init
    ⟨"insert", 0, "w", 0, 0, some "w1"⟩
    ⟨⟨"wHello OT!", 1⟩, [⟨"insert", 0, "w", 0, 0, some "w1"⟩]⟩
    ⟨some "w1", "insert", 0, "w", 0, 1⟩ (by decide)

/-- C8: `transform` is a pure function of the five transformation-
relevant fields of its operands: its result is unchanged when the
operands' `op_id` fields are replaced (the only input data the body ever
reads are the five fields captured by the copies built on lines 37-38),
and its results are those fresh copies — each keeps its operand's
`op_type`, `text` and `base_version` and carries the copy's `op_id` of
`none`, never aliasing the inputs.  Input mutation itself cannot occur in
this value-level embedding; every Python attribute assignment in the body
targets the copies `A` and `B`, which this theorem's frame facts make
observable. -/
theorem transform_pure_and_input_independent (a b : Operation) :
    (∀ (i j : Option String),
      transform { a with op_id := i } { b with op_id := j } = transform a b) ∧
    (transform a b).1.op_type = a.op_type ∧
    (transform a b).1.text = a.text ∧
    (transform a b).1.base_version = a.base_version ∧
    (transform a b).1.op_id = none ∧
    (transform a b).2.op_type = b.op_type ∧
    (transform a b).2.text = b.text ∧
    (transform a b).2.base_version = b.base_version ∧
    (transform a b).2.op_id = none := by
  have hf := transformAux_frame 2 a b
  exact ⟨fun i j => rfl, hf.1.1, hf.1.2.1, hf.1.2.2.1, hf.1.2.2.2,
         hf.2.1, hf.2.2.1, hf.2.2.2.1, hf.2.2.2.2⟩

/-- C10: applying an operation of unknown kind raises the `ValueError`
before any state is touched: `apply_operation` returns the error (so
neither the text assignment nor the version increment happens), and a
whole server step with such an operation leaves the server state exactly
as it was — the rebasing fold preserves the unknown kind, so the apply
step fails before the history append. -/
theorem apply_operation_unknown_kind_atomic (d : DocumentModel)
    (op : Operation) (h1 : op.op_type ≠ "insert")
    (h2 : op.op_type ≠ "delete") :
    d.apply_operation op = .error "Unknown operation type." ∧
    ∀ s : OTServer, s.step op = s := by
  refine ⟨apply_operation_error d op h1 h2, fun s => ?_⟩
  have hk : ((pySliceFrom s.history op.base_version).foldl
      (fun acc old => (transform acc old).1) op).op_type = op.op_type :=
    rebase_op_type _ op
  have herr : s.handle_incoming_operation op = .error "Unknown operation type." := by
    simp only [OTServer.handle_incoming_operation]
    rw [apply_operation_error s.document _ (by rw [hk]; exact h1)
      (by rw [hk]; exact h2)]
  simp [OTServer.step, herr]

/-- Witness for `apply_operation_unknown_kind_atomic` at kind "noop". -/
theorem apply_operation_unknown_kind_atomic_witness :
    (⟨"abc", 0⟩ : DocumentModel).apply_operation ⟨"noop", 0, "", 0, 0, none⟩ =
      .error "Unknown operation type." ∧
    OTServer.init.step ⟨"noop", 0, "", 0, 0, none⟩ = OTServer.init := by
  have h := apply_operation_unknown_kind_atomic ⟨"abc", 0⟩
    ⟨"noop", 0, "", 0, 0, none⟩ (by decide) (by decide)
  exact ⟨h.1, h.2 OTServer.init⟩

end LiveEdits
